import Mathlib

/-!
Shallow embedding of `drivers/sx127x/sx127x_netdev.c` (netdev adaptation of the
sx127x LoRa radio driver) and proofs of the specification claims about it.

The file under `src/` is the authority for every function it contains
(`_send`, `_recv`, `_set`, `_get`, `_get_state`, `_get_tx_len`).  Helpers that
live in other files of the repository (the getset layer, the register map
header, the timer API) are modelled from the specification; each such
definition carries a doc comment starting with `Modelled from the spec:`.

Machine integers are modelled as `Nat`/`Int` with explicit masking where the
C performs 8-bit register accesses or `uint8_t` arithmetic.
-/

/-! ## Constants

Register addresses, flag bits and enumeration values.  The register map header
`sx127x_registers.h` and the driver header `sx127x.h` are not under `src/`;
the numeric values below follow the chip register map the spec describes
("this spec does not define the bit-level register map"), and no claim depends
on the particular numerals, only on their distinctness and ordering. -/

def SX127X_REG_OPMODE : Nat := 0x01
def SX127X_REG_LR_FIFOADDRPTR : Nat := 0x0D
def SX127X_REG_LR_FIFOTXBASEADDR : Nat := 0x0E
def SX127X_REG_LR_FIFORXCURRENTADDR : Nat := 0x10
def SX127X_REG_LR_IRQFLAGSMASK : Nat := 0x11
def SX127X_REG_LR_IRQFLAGS : Nat := 0x12
def SX127X_REG_LR_RXNBBYTES : Nat := 0x13
def SX127X_REG_LR_PKTSNRVALUE : Nat := 0x19
def SX127X_REG_LR_PKTRSSIVALUE : Nat := 0x1A
def SX127X_REG_LR_PAYLOADLENGTH : Nat := 0x22
def SX127X_REG_DIOMAPPING1 : Nat := 0x40

def SX127X_RF_LORA_IRQFLAGS_RXTIMEOUT : Nat := 0x80
def SX127X_RF_LORA_IRQFLAGS_RXDONE : Nat := 0x40
def SX127X_RF_LORA_IRQFLAGS_PAYLOADCRCERROR : Nat := 0x20
/-- Modelled from the spec: the mask constant used to test the CRC-error
interrupt flag equals the flag bit itself ("if the CRC-error flag is set"). -/
def SX127X_RF_LORA_IRQFLAGS_PAYLOADCRCERROR_MASK : Nat := 0x20
def SX127X_RF_LORA_IRQFLAGS_VALIDHEADER : Nat := 0x10
def SX127X_RF_LORA_IRQFLAGS_TXDONE : Nat := 0x08
def SX127X_RF_LORA_IRQFLAGS_CADDONE : Nat := 0x04
def SX127X_RF_LORA_IRQFLAGS_FHSSCHANGEDCHANNEL : Nat := 0x02
def SX127X_RF_LORA_IRQFLAGS_CADDETECTED : Nat := 0x01

def SX127X_RF_LORA_DIOMAPPING1_DIO0_MASK : Nat := 0x3F
def SX127X_RF_LORA_DIOMAPPING1_DIO0_01 : Nat := 0x40

/-- Raw chip operating modes (low bits of the op-mode register). -/
def SX127X_RF_OPMODE_SLEEP : Nat := 0x00
def SX127X_RF_OPMODE_STANDBY : Nat := 0x01
def SX127X_RF_OPMODE_TRANSMITTER : Nat := 0x03
def SX127X_RF_OPMODE_RECEIVER : Nat := 0x05
def SX127X_RF_LORA_OPMODE_RECEIVER_SINGLE : Nat := 0x06

/-- Logical driver states (`sx127x.h` enumeration; `SX127X_RF_IDLE` is the
spec's Standby/idle state). -/
def SX127X_RF_IDLE : Nat := 0
def SX127X_RF_RX_RUNNING : Nat := 1
def SX127X_RF_TX_RUNNING : Nat := 2

def SX127X_MODEM_FSK : Nat := 0
def SX127X_MODEM_LORA : Nat := 1

/-- Modelled from the spec: the fixed mid-band channel threshold that selects
between the high- and low-frequency RSSI offsets. -/
def SX127X_RF_MID_BAND_THRESH : Nat := 525000000
/-- Modelled from the spec: high-frequency RSSI offset. -/
def SX127X_RSSI_OFFSET_HF : Int := -157
/-- Modelled from the spec: low-frequency RSSI offset. -/
def SX127X_RSSI_OFFSET_LF : Int := -164

/-- Modelled from the spec: fixed wake-up settle duration in microseconds. -/
def SX127X_RADIO_WAKEUP_TIME : Nat := 1000

/-- Modelled from the spec: validated bandwidth range codes
(`[125kHz-code, 500kHz-code]`). -/
def SX127X_BW_125_KHZ : Nat := 7
def SX127X_BW_500_KHZ : Nat := 9
/-- Modelled from the spec: validated spreading-factor range `[SF6, SF12]`. -/
def SX127X_SF6 : Nat := 6
def SX127X_SF12 : Nat := 12
/-- Modelled from the spec: validated coding-rate range
(`[4/5-code, 4/8-code]`). -/
def SX127X_CR_4_5 : Nat := 1
def SX127X_CR_4_8 : Nat := 4

/-- Errno values used by the C returns (newlib-style numerals; only their
distinctness matters). -/
def ENOTSUP : Int := 95
def EBADMSG : Int := 74
def ENOBUFS : Int := 105
def EINVAL : Int := 22

/-! ## SNR and RSSI computations (from `_recv`, lines 157-192) -/

/-- C subexpression `(~snr_value + 1) & 0xFF`: complement on the 32-bit
promoted value, plus one, masked to the low byte — the 8-bit two's-complement
magnitude of `snr_value`. -/
def neg8 (v : Nat) : Nat := ((2 ^ 32 - 1 - v) + 1) &&& 0xFF

/-- C operator `>> 2` applied to a possibly negative `int`: on the targeted
compilers this is an arithmetic shift, i.e. floor division by 4. -/
def asr2 (x : Int) : Int := Int.fdiv x 4

/-- SNR derivation from the raw packet-SNR register
(`sx127x_netdev.c:158-165`).  The negative branch is C's
`-1 * ((~snr_value + 1) & 0xFF) >> 2`, in which `*` binds tighter than `>>`,
so the negation happens before the shift. -/
def snrOf (snr_value : Nat) : Int :=
  if snr_value &&& 0x80 ≠ 0 then
    asr2 ((-1) * (neg8 snr_value : Int))
  else
    ((snr_value &&& 0xFF) >>> 2 : Nat)

/-- RSSI derivation (`sx127x_netdev.c:167-192`, the SX1276 branch, which is
the band-selecting variant the spec describes): offset chosen by the channel
against the mid-band threshold, plus the raw register value, plus a sixteenth
of it, plus the SNR when the SNR is negative. -/
def rssiOf (channel : Nat) (rssi : Nat) (snr : Int) : Int :=
  if snr < 0 then
    if channel > SX127X_RF_MID_BAND_THRESH then
      SX127X_RSSI_OFFSET_HF + rssi + ((rssi >>> 4 : Nat) : Int) + snr
    else
      SX127X_RSSI_OFFSET_LF + rssi + ((rssi >>> 4 : Nat) : Int) + snr
  else
    if channel > SX127X_RF_MID_BAND_THRESH then
      SX127X_RSSI_OFFSET_HF + rssi + ((rssi >>> 4 : Nat) : Int)
    else
      SX127X_RSSI_OFFSET_LF + rssi + ((rssi >>> 4 : Nat) : Int)

/-! ## State query (`_get_state`, lines 512-540) -/

/-- Logical netdev states (`netopt_state_t` members used by this driver). -/
inductive NetoptState where
  | sleep
  | standby
  | idle
  | rx
  | tx
  | reset
deriving DecidableEq, Repr

/-- Raw-op-mode to logical-state mapping of `_get_state`
(`sx127x_netdev.c:517-537`).  The C `switch` has an empty `default` that
leaves the local `state` variable indeterminate; that case is embedded as
`none`. -/
def opModeToState (op_mode : Nat) : Option NetoptState :=
  if op_mode = SX127X_RF_OPMODE_SLEEP then some NetoptState.sleep
  else if op_mode = SX127X_RF_OPMODE_STANDBY then some NetoptState.standby
  else if op_mode = SX127X_RF_OPMODE_TRANSMITTER then some NetoptState.tx
  else if op_mode = SX127X_RF_OPMODE_RECEIVER ∨
          op_mode = SX127X_RF_LORA_OPMODE_RECEIVER_SINGLE then
    some NetoptState.idle
  else none

/-- The raw operating modes named by the source file's `_get_state` switch:
the defined raw modes available to this development (the register-map header
is outside `src/`). -/
def definedOpModes : List Nat :=
  [SX127X_RF_OPMODE_SLEEP, SX127X_RF_OPMODE_STANDBY,
   SX127X_RF_OPMODE_TRANSMITTER, SX127X_RF_OPMODE_RECEIVER,
   SX127X_RF_LORA_OPMODE_RECEIVER_SINGLE]

/-! ## Device state and effect traces

The register/bus layer, the timers and the upward event callback are external
collaborators; their invocations are recorded in an effect trace, and the
register file, FIFO and timer slots are carried in the device state so that
"unchanged" claims can be stated directly. -/

/-- The driver's two one-shot timer slots. -/
inductive TimerId where
  | tx
  | rx
deriving DecidableEq, Repr

/-- Upward netdev events signalled by this file. -/
inductive Ev where
  | crcError
deriving DecidableEq, Repr

/-- An observable interaction with a collaborator (register port, FIFO port,
timer service, state-machine setter, event callback). -/
inductive Effect where
  | regWrite (addr v : Nat)
  | regRead (addr : Nat)
  | fifoWrite (bytes : List Nat)
  | fifoRead (n : Nat)
  | setStandby
  | sleepWait (us : Nat)
  | timerSet (t : TimerId) (duration : Nat)
  | timerRemove (t : TimerId)
  | setLogicalState (s : Nat)
  | setOpMode (m : Nat)
  | event (e : Ev)
  | chipApply (opt v : Nat)
deriving DecidableEq, Repr

/-- The chip registers this file accesses, as an 8-bit register file. -/
structure Regs where
  opMode : Nat
  fifoAddrPtr : Nat
  fifoTxBaseAddr : Nat
  fifoRxCurrentAddr : Nat
  irqFlags : Nat
  irqFlagsMask : Nat
  rxNbBytes : Nat
  pktSnrValue : Nat
  pktRssiValue : Nat
  payloadLength : Nat
  dioMapping1 : Nat
deriving DecidableEq, Repr

/-- The `sx127x_radio_settings_t` fields this file reads or writes.  The
`lora.flags` bitfield is modelled by its individual flags. -/
structure Settings where
  channel : Nat
  modem : Nat
  state : Nat
  bandwidth : Nat
  spreadingFactor : Nat
  codingRate : Nat
  rxContinuous : Bool
  tx_timeout : Nat
  windowTimeout : Nat
deriving DecidableEq, Repr

/-- A device: settings, chip register file, chip FIFO contents, the two
one-shot timer slots (`some d` when armed with duration `d`), and the
time-on-air estimator.  Modelled from the spec: `toaFn` stands for the
external `sx127x_get_time_on_air` helper, which the spec fixes only as "a
function of the requested buffer length and the currently configured
spreading factor, bandwidth, and coding rate", so it is kept as a per-device
parameter `toaFn bandwidth spreadingFactor codingRate length`. -/
structure Device where
  settings : Settings
  regs : Regs
  fifo : List Nat
  txTimer : Option Nat
  rxTimer : Option Nat
  toaFn : Nat → Nat → Nat → Nat → Nat

/-- Register write, `sx127x_reg_write`.  The interrupt-flags register is
write-1-to-clear (writing a bit clears that flag — spec steps "Clears the
receive-done interrupt flag", "clear it"); every other register stores the
written byte. -/
def regWrite (dev : Device) (addr v : Nat) : Device :=
  if addr = SX127X_REG_LR_IRQFLAGS then
    { dev with regs := { dev.regs with
        irqFlags := dev.regs.irqFlags &&& (0xFF ^^^ (v &&& 0xFF)) } }
  else if addr = SX127X_REG_LR_IRQFLAGSMASK then
    { dev with regs := { dev.regs with irqFlagsMask := v &&& 0xFF } }
  else if addr = SX127X_REG_LR_FIFOADDRPTR then
    { dev with regs := { dev.regs with fifoAddrPtr := v &&& 0xFF } }
  else if addr = SX127X_REG_LR_FIFOTXBASEADDR then
    { dev with regs := { dev.regs with fifoTxBaseAddr := v &&& 0xFF } }
  else if addr = SX127X_REG_LR_PAYLOADLENGTH then
    { dev with regs := { dev.regs with payloadLength := v &&& 0xFF } }
  else if addr = SX127X_REG_DIOMAPPING1 then
    { dev with regs := { dev.regs with dioMapping1 := v &&& 0xFF } }
  else
    dev

/-- Register read, `sx127x_reg_read`: the registers are 8 bits wide. -/
def regRead (dev : Device) (addr : Nat) : Nat :=
  (if addr = SX127X_REG_OPMODE then dev.regs.opMode
   else if addr = SX127X_REG_LR_IRQFLAGS then dev.regs.irqFlags
   else if addr = SX127X_REG_LR_IRQFLAGSMASK then dev.regs.irqFlagsMask
   else if addr = SX127X_REG_LR_FIFOADDRPTR then dev.regs.fifoAddrPtr
   else if addr = SX127X_REG_LR_FIFORXCURRENTADDR then dev.regs.fifoRxCurrentAddr
   else if addr = SX127X_REG_LR_RXNBBYTES then dev.regs.rxNbBytes
   else if addr = SX127X_REG_LR_PKTSNRVALUE then dev.regs.pktSnrValue
   else if addr = SX127X_REG_LR_PKTRSSIVALUE then dev.regs.pktRssiValue
   else if addr = SX127X_REG_DIOMAPPING1 then dev.regs.dioMapping1
   else 0) &&& 0xFF

/-- Modelled from the spec: `sx127x_get_state` returns the driver's stored
logical state, "the sole source of truth for what the chip is doing"
(the getset layer is not under `src/`). -/
def sx127x_get_state (dev : Device) : Nat := dev.settings.state

/-- Modelled from the spec: `sx127x_set_state` stores the logical state. -/
def sx127x_set_state (dev : Device) (s : Nat) : Device :=
  { dev with settings := { dev.settings with state := s } }

/-- Modelled from the spec: `sx127x_get_op_mode` reads the chip's raw
operating mode from the op-mode register. -/
def sx127x_get_op_mode (dev : Device) : Nat := regRead dev SX127X_REG_OPMODE &&& 0x07

/-- Modelled from the spec: `sx127x_set_op_mode` commands the chip's raw
operating mode. -/
def sx127x_set_op_mode (dev : Device) (m : Nat) : Device :=
  { dev with regs := { dev.regs with opMode := m } }

/-- Modelled from the spec: `sx127x_set_standby` commands the chip to standby
("forces a wake to standby"). -/
def sx127x_set_standby (dev : Device) : Device :=
  sx127x_set_op_mode dev SX127X_RF_OPMODE_STANDBY

/-- Modelled from the spec: `sx127x_set_payload_length` programs the
payload-length field. -/
def sx127x_set_payload_length (dev : Device) (n : Nat) : Device :=
  regWrite dev SX127X_REG_LR_PAYLOADLENGTH n

/-- Modelled from the spec: `sx127x_write_fifo` appends bytes to the chip
FIFO through the FIFO port. -/
def sx127x_write_fifo (dev : Device) (bytes : List Nat) : Device :=
  { dev with fifo := dev.fifo ++ bytes }

/-- Modelled from the spec: `sx127x_get_time_on_air` estimates time-on-air
from the buffer length and the configured bandwidth, spreading factor and
coding rate. -/
def sx127x_get_time_on_air (dev : Device) (len : Nat) : Nat :=
  dev.toaFn dev.settings.bandwidth dev.settings.spreadingFactor
    dev.settings.codingRate len

/-! ## `_send` (lines 56-122) and `_get_tx_len` (lines 466-475) -/

/-- `_get_tx_len`: sums the iovec lengths in a `uint8_t` accumulator
(wrapping at 256). -/
def _get_tx_len (vector : List (List Nat)) : Nat :=
  vector.foldl (fun len v => (len + v.length) &&& 0xFF) 0

/-- The interrupt-flags mask value written by `_send` (lines 98-106): every
source except TXDONE masked. -/
def txIrqMaskValue : Nat :=
  SX127X_RF_LORA_IRQFLAGS_RXTIMEOUT |||
  SX127X_RF_LORA_IRQFLAGS_RXDONE |||
  SX127X_RF_LORA_IRQFLAGS_PAYLOADCRCERROR |||
  SX127X_RF_LORA_IRQFLAGS_VALIDHEADER |||
  SX127X_RF_LORA_IRQFLAGS_CADDONE |||
  SX127X_RF_LORA_IRQFLAGS_FHSSCHANGEDCHANNEL |||
  SX127X_RF_LORA_IRQFLAGS_CADDETECTED

/-- The modem-specific part of `_send` (the `switch (dev->settings.modem)`,
lines 68-95): programs length and FIFO addresses, wakes the chip if asleep,
and writes the payload buffers to the FIFO; the FSK and default arms do
nothing observable. -/
def sendModemPart (dev : Device) (vector : List (List Nat)) (size : Nat) :
    Device × List Effect :=
  if dev.settings.modem = SX127X_MODEM_FSK then (dev, [])
  else if dev.settings.modem = SX127X_MODEM_LORA then
    let dA := sx127x_set_payload_length dev size
    let dB := regWrite dA SX127X_REG_LR_FIFOTXBASEADDR 0x00
    let dC := regWrite dB SX127X_REG_LR_FIFOADDRPTR 0x00
    let wake :=
      if sx127x_get_op_mode dC = SX127X_RF_OPMODE_SLEEP then
        (sx127x_set_standby dC,
         [Effect.setStandby, Effect.sleepWait SX127X_RADIO_WAKEUP_TIME])
      else (dC, [])
    let dE := vector.foldl (fun d b => sx127x_write_fifo d b) wake.1
    (dE,
     [Effect.regWrite SX127X_REG_LR_PAYLOADLENGTH size,
      Effect.regWrite SX127X_REG_LR_FIFOTXBASEADDR 0x00,
      Effect.regWrite SX127X_REG_LR_FIFOADDRPTR 0x00] ++
     wake.2 ++ vector.map Effect.fifoWrite)
  else (dev, [])

/-- `_send` (lines 56-122): refuses with the busy error (`-ENOTSUP` at line
63) while already transmitting; otherwise runs the modem-specific
programming, switches the interrupt mask to TXDONE-only, maps DIO0, arms the
tx timeout, records the Transmitting state and commands transmit mode. -/
def _send (dev : Device) (vector : List (List Nat)) :
    Int × Device × List Effect :=
  if sx127x_get_state dev = SX127X_RF_TX_RUNNING then
    (-ENOTSUP, dev, [])
  else
    let size := _get_tx_len vector
    let part := sendModemPart dev vector size
    let d1 := part.1
    let d2 := regWrite d1 SX127X_REG_LR_IRQFLAGSMASK txIrqMaskValue
    let dioOld := regRead d2 SX127X_REG_DIOMAPPING1
    let dioNew := (dioOld &&& SX127X_RF_LORA_DIOMAPPING1_DIO0_MASK) |||
                  SX127X_RF_LORA_DIOMAPPING1_DIO0_01
    let d3 := regWrite d2 SX127X_REG_DIOMAPPING1 dioNew
    let d4 := { d3 with txTimer := some d3.settings.tx_timeout }
    let d5 := sx127x_set_state d4 SX127X_RF_TX_RUNNING
    let d6 := sx127x_set_op_mode d5 SX127X_RF_OPMODE_TRANSMITTER
    (0, d6,
     part.2 ++
     [Effect.regWrite SX127X_REG_LR_IRQFLAGSMASK txIrqMaskValue,
      Effect.regRead SX127X_REG_DIOMAPPING1,
      Effect.regWrite SX127X_REG_DIOMAPPING1 dioNew,
      Effect.timerSet TimerId.tx d3.settings.tx_timeout,
      Effect.setLogicalState SX127X_RF_TX_RUNNING,
      Effect.setOpMode SX127X_RF_OPMODE_TRANSMITTER])

/-! ## `_recv` (lines 124-221) -/

/-- The packet-info structure filled by `_recv`
(`netdev_sx127x_lora_packet_info_t`; the header is outside `src/`, the field
meanings are modelled from the spec: rssi and snr signed, lqi always 0,
time-on-air estimated). -/
structure PacketInfo where
  lqi : Nat
  snr : Int
  rssi : Int
  time_on_air : Nat
deriving DecidableEq, Repr

/-- The full outcome of a `_recv` call: the C `int` return, the device after
the call, the effect trace, the packet info written through the `info`
pointer (when one was passed), and the bytes copied into the caller's buffer
(when any were). -/
structure RecvOut where
  ret : Int
  dev : Device
  trace : List Effect
  info : Option PacketInfo
  bytesOut : Option (List Nat)

/-- The link-quality block of `_recv` (lines 153-194): LQI 0, SNR from the
packet-SNR register, RSSI from the packet-RSSI register with band-selected
offset, time-on-air estimate. -/
def recvPacketInfo (dev : Device) (len : Nat) : PacketInfo :=
  let snr_value := regRead dev SX127X_REG_LR_PKTSNRVALUE
  let snr := snrOf snr_value
  let rssi := regRead dev SX127X_REG_LR_PKTRSSIVALUE
  { lqi := 0
    snr := snr
    rssi := rssiOf dev.settings.channel rssi snr
    time_on_air := sx127x_get_time_on_air dev len }

/-- `_recv` (lines 124-221).  `hasBuf` is whether the caller passed a buffer
(`buf != NULL`), `wantInfo` whether an info pointer was passed.  The FSK and
default modem arms fall through to `return size` with `size = 0`. -/
def _recv (dev : Device) (hasBuf : Bool) (len : Nat) (wantInfo : Bool) :
    RecvOut :=
  if dev.settings.modem = SX127X_MODEM_FSK then ⟨0, dev, [], none, none⟩
  else if dev.settings.modem = SX127X_MODEM_LORA then
    let d1 := regWrite dev SX127X_REG_LR_IRQFLAGS SX127X_RF_LORA_IRQFLAGS_RXDONE
    let t1 := [Effect.regWrite SX127X_REG_LR_IRQFLAGS SX127X_RF_LORA_IRQFLAGS_RXDONE,
               Effect.regRead SX127X_REG_LR_IRQFLAGS]
    let irq_flags := regRead d1 SX127X_REG_LR_IRQFLAGS
    if irq_flags &&& SX127X_RF_LORA_IRQFLAGS_PAYLOADCRCERROR_MASK =
        SX127X_RF_LORA_IRQFLAGS_PAYLOADCRCERROR then
      let d2 := regWrite d1 SX127X_REG_LR_IRQFLAGS
                  SX127X_RF_LORA_IRQFLAGS_PAYLOADCRCERROR
      let d3 := if ¬ dev.settings.rxContinuous then
                  sx127x_set_state d2 SX127X_RF_IDLE
                else d2
      let d4 := { d3 with rxTimer := none }
      ⟨-EBADMSG, d4,
       t1 ++
       [Effect.regWrite SX127X_REG_LR_IRQFLAGS
          SX127X_RF_LORA_IRQFLAGS_PAYLOADCRCERROR] ++
       (if ¬ dev.settings.rxContinuous then
          [Effect.setLogicalState SX127X_RF_IDLE] else []) ++
       [Effect.timerRemove TimerId.rx, Effect.event Ev.crcError],
       none, none⟩
    else
      let info? := if wantInfo then some (recvPacketInfo d1 len) else none
      let tInfo := if wantInfo then
          [Effect.regRead SX127X_REG_LR_PKTSNRVALUE,
           Effect.regRead SX127X_REG_LR_PKTRSSIVALUE] else []
      let size := regRead d1 SX127X_REG_LR_RXNBBYTES
      let t2 := t1 ++ tInfo ++ [Effect.regRead SX127X_REG_LR_RXNBBYTES]
      if ¬ hasBuf then ⟨size, d1, t2, info?, none⟩
      else if size > len then ⟨-ENOBUFS, d1, t2, info?, none⟩
      else
        let d2 := if ¬ dev.settings.rxContinuous then
                    sx127x_set_state d1 SX127X_RF_IDLE
                  else d1
        let d3 := { d2 with rxTimer := none }
        let last_rx_addr := regRead d3 SX127X_REG_LR_FIFORXCURRENTADDR
        let d4 := regWrite d3 SX127X_REG_LR_FIFOADDRPTR last_rx_addr
        ⟨size, d4,
         t2 ++
         (if ¬ dev.settings.rxContinuous then
            [Effect.setLogicalState SX127X_RF_IDLE] else []) ++
         [Effect.timerRemove TimerId.rx,
          Effect.regRead SX127X_REG_LR_FIFORXCURRENTADDR,
          Effect.regWrite SX127X_REG_LR_FIFOADDRPTR last_rx_addr,
          Effect.fifoRead size],
         info?, some (d4.fifo.take size)⟩
  else ⟨0, dev, [], none, none⟩

/-! ## Configuration setters (`_set`, lines 371-402) and getters

Only the three range-validated options the claims concern are embedded; the
remaining `switch` cases are independent branches with no shared state. -/

/-- The three range-validated netdev options. -/
inductive NetoptK where
  | bandwidth
  | spreadingFactor
  | codingRate
deriving DecidableEq, Repr

/-- Modelled from the spec: `sx127x_set_bandwidth` stores the validated value
in the settings and writes it through to the chip. -/
def sx127x_set_bandwidth (dev : Device) (bw : Nat) : Device × List Effect :=
  ({ dev with settings := { dev.settings with bandwidth := bw } },
   [Effect.chipApply 0 bw])

/-- Modelled from the spec: `sx127x_set_spreading_factor` stores the
validated value in the settings and writes it through to the chip. -/
def sx127x_set_spreading_factor (dev : Device) (sf : Nat) :
    Device × List Effect :=
  ({ dev with settings := { dev.settings with spreadingFactor := sf } },
   [Effect.chipApply 1 sf])

/-- Modelled from the spec: `sx127x_set_coding_rate` stores the validated
value in the settings and writes it through to the chip. -/
def sx127x_set_coding_rate (dev : Device) (cr : Nat) : Device × List Effect :=
  ({ dev with settings := { dev.settings with codingRate := cr } },
   [Effect.chipApply 2 cr])

/-- Modelled from the spec: `sx127x_get_bandwidth` reads back the cached
setting. -/
def sx127x_get_bandwidth (dev : Device) : Nat := dev.settings.bandwidth

/-- Modelled from the spec: `sx127x_get_spreading_factor` reads back the
cached setting. -/
def sx127x_get_spreading_factor (dev : Device) : Nat :=
  dev.settings.spreadingFactor

/-- Modelled from the spec: `sx127x_get_coding_rate` reads back the cached
setting. -/
def sx127x_get_coding_rate (dev : Device) : Nat := dev.settings.codingRate

/-- The range-validated cases of `_set` (lines 371-402): a value outside the
legal range takes the `res = -EINVAL; break;` path and returns `-EINVAL`
without calling the setter; a value in range calls the setter and returns
`sizeof(uint8_t)`. -/
def _set (dev : Device) (opt : NetoptK) (v : Nat) : Int × Device × List Effect :=
  match opt with
  | NetoptK.bandwidth =>
      if v < SX127X_BW_125_KHZ ∨ v > SX127X_BW_500_KHZ then (-EINVAL, dev, [])
      else
        let r := sx127x_set_bandwidth dev v
        (1, r.1, r.2)
  | NetoptK.spreadingFactor =>
      if v < SX127X_SF6 ∨ v > SX127X_SF12 then (-EINVAL, dev, [])
      else
        let r := sx127x_set_spreading_factor dev v
        (1, r.1, r.2)
  | NetoptK.codingRate =>
      if v < SX127X_CR_4_5 ∨ v > SX127X_CR_4_8 then (-EINVAL, dev, [])
      else
        let r := sx127x_set_coding_rate dev v
        (1, r.1, r.2)

/-- The matching cases of `_get` (lines 300-313): return `sizeof(uint8_t)`
and the value the getter reads back. -/
def _get (dev : Device) (opt : NetoptK) : Int × Nat :=
  match opt with
  | NetoptK.bandwidth => (1, sx127x_get_bandwidth dev)
  | NetoptK.spreadingFactor => (1, sx127x_get_spreading_factor dev)
  | NetoptK.codingRate => (1, sx127x_get_coding_rate dev)

/-- Lower bound of the validated range for each option (from the `_set`
guards). -/
def rangeLo : NetoptK → Nat
  | NetoptK.bandwidth => SX127X_BW_125_KHZ
  | NetoptK.spreadingFactor => SX127X_SF6
  | NetoptK.codingRate => SX127X_CR_4_5

/-- Upper bound of the validated range for each option (from the `_set`
guards). -/
def rangeHi : NetoptK → Nat
  | NetoptK.bandwidth => SX127X_BW_500_KHZ
  | NetoptK.spreadingFactor => SX127X_SF12
  | NetoptK.codingRate => SX127X_CR_4_8

/-- `_get_state` at device level (lines 512-540): read the raw op mode and
map it to the logical state. -/
def _get_state (dev : Device) : Option NetoptState :=
  opModeToState (sx127x_get_op_mode dev)

/-! ## Test fixtures

Concrete devices used by the witness theorems. -/

/-- A LoRa device in the idle state with an armed rx timeout and a pending
received packet of 5 bytes. -/
def sampleDev : Device :=
  { settings :=
      { channel := 868000000
        modem := SX127X_MODEM_LORA
        state := SX127X_RF_IDLE
        bandwidth := 7
        spreadingFactor := 7
        codingRate := 1
        rxContinuous := false
        tx_timeout := 30000000
        windowTimeout := 0 }
    regs :=
      { opMode := SX127X_RF_OPMODE_RECEIVER
        fifoAddrPtr := 0
        fifoTxBaseAddr := 0
        fifoRxCurrentAddr := 0x10
        irqFlags := 0x40
        irqFlagsMask := 0
        rxNbBytes := 5
        pktSnrValue := 0x0C
        pktRssiValue := 100
        payloadLength := 0
        dioMapping1 := 0 }
    fifo := [10, 20, 30, 40, 50, 60, 70, 80]
    txTimer := none
    rxTimer := some 5000
    toaFn := fun _ _ _ _ => 0 }

/-- `sampleDev` already in the Transmitting state. -/
def devTx : Device :=
  { sampleDev with settings := { sampleDev.settings with
      state := SX127X_RF_TX_RUNNING } }

/-- `sampleDev` with the CRC-error interrupt flag raised. -/
def devCrc : Device :=
  { sampleDev with regs := { sampleDev.regs with irqFlags := 0x60 } }

/-- `sampleDev` configured for the FSK modem. -/
def devFsk : Device :=
  { sampleDev with settings := { sampleDev.settings with
      modem := SX127X_MODEM_FSK } }

/-! ## Helper lemmas -/

/-- Clearing the RXDONE bit (AND with `0xBF`) and reading the byte back
preserves the CRC-error bit `0x20`. -/
theorem land_clear_rxdone_keeps_crc (f : Nat) :
    ((f &&& 0xBF) &&& 0xFF) &&& 0x20 = f &&& 0x20 := by
  rw [Nat.land_assoc, Nat.land_assoc]
  have h : (0xBF : Nat) &&& (0xFF &&& 0x20) = 0x20 := by decide
  rw [h]

/-- Clearing the RXDONE bit and then the CRC-error bit (AND with `0xDF`)
leaves the CRC-error bit clear. -/
theorem land_clear_both_clears_crc (f : Nat) :
    ((f &&& 0xBF) &&& 0xDF) &&& 0x20 = 0 := by
  rw [Nat.land_assoc, Nat.land_assoc]
  have h : (0xBF : Nat) &&& (0xDF &&& 0x20) = 0 := by decide
  rw [h]
  simp

/-! ## Claim C1 -/

/-- Claim C1: for every device whose current state is Transmitting, `_send`
fails with the busy error (the `-ENOTSUP` return at line 63, the failure the
spec's error taxonomy names `Busy`) and performs no effect at all — in
particular the armed tx timeout, the FIFO contents, the registers and the
state are untouched, since the device is returned unchanged with an empty
trace. -/
theorem c1_send_while_transmitting (dev : Device) (vector : List (List Nat))
    (h : sx127x_get_state dev = SX127X_RF_TX_RUNNING) :
    _send dev vector = (-ENOTSUP, dev, []) := by
  unfold _send
  rw [if_pos h]

/-- Witness for C1 at a concrete transmitting device. -/
theorem c1_send_while_transmitting_witness :
    _send devTx [[1, 2, 3]] = (-ENOTSUP, devTx, []) :=
  c1_send_while_transmitting devTx [[1, 2, 3]] rfl

/-! ## Claim C2 -/

/-- Claim C2, counterexample: the claim states that raw SNR register value
`0x80` yields SNR = 0, but the code computes `(-1 * ((~0x80 + 1) & 0xFF)) >> 2
= (-128) >> 2 = -32` (the 8-bit two's-complement magnitude of `0x80` is 128,
not 0). -/
theorem c2_snr_counterexample : snrOf 0x80 = -32 ∧ snrOf 0x80 ≠ 0 := by
  constructor
  · decide
  · decide

set_option maxRecDepth 100000 in
/-- Claim C2 as amended: raw value `0x80` yields SNR = -32 (not 0); `0x04`
yields 1; `0xFC` yields -1; in general a raw value with the top bit set is
two's-complement negated to its 8-bit magnitude, multiplied by -1, and then
divided by 4 toward negative infinity, while a non-negative raw value is
right-shifted by 2. -/
theorem c2_snr_amended :
    snrOf 0x80 = -32 ∧ snrOf 0x04 = 1 ∧ snrOf 0xFC = -1 ∧
    ∀ v, v < 256 →
      snrOf v = (if 128 ≤ v then Int.fdiv (-(256 - (v : Int))) 4
                 else ((v / 4 : Nat) : Int)) := by
  refine ⟨by decide, by decide, by decide, ?_⟩
  decide

/-- Witness for C2's amended general statement at the concrete raw value
`0xFC`. -/
theorem c2_snr_amended_witness :
    snrOf 0xFC = (if 128 ≤ 0xFC then Int.fdiv (-(256 - (0xFC : Int))) 4
                  else ((0xFC / 4 : Nat) : Int)) :=
  c2_snr_amended.2.2.2 0xFC (by decide)

/-! ## Claim C7 -/

/-- Claim C7: in the RSSI computation of the receive path, a channel strictly
above the mid-band threshold selects the high-frequency offset, a channel at
or below it selects the low-frequency offset, and the SNR value is added to
the estimate exactly when the SNR is negative. -/
theorem c7_rssi_band_selection (channel rssi : Nat) (snr : Int) :
    rssiOf channel rssi snr =
      (if channel > SX127X_RF_MID_BAND_THRESH then SX127X_RSSI_OFFSET_HF
       else SX127X_RSSI_OFFSET_LF) +
      rssi + ((rssi >>> 4 : Nat) : Int) +
      (if snr < 0 then snr else 0) := by
  unfold rssiOf
  by_cases h1 : snr < 0 <;>
    by_cases h2 : channel > SX127X_RF_MID_BAND_THRESH <;>
    simp [h1, h2]

/-! ## Claim C8 -/

/-- Claim C8: the state query maps every defined raw operating mode (the
modes named by the source's switch; the register-map header is outside
`src/`) to exactly one logical state, and the two hardware receive variants
(continuous receiver and single receiver) both map to the logical idle
state. -/
theorem c8_get_state_mapping :
    (∀ m ∈ definedOpModes, (opModeToState m).isSome) ∧
    opModeToState SX127X_RF_OPMODE_SLEEP = some NetoptState.sleep ∧
    opModeToState SX127X_RF_OPMODE_STANDBY = some NetoptState.standby ∧
    opModeToState SX127X_RF_OPMODE_TRANSMITTER = some NetoptState.tx ∧
    opModeToState SX127X_RF_OPMODE_RECEIVER = some NetoptState.idle ∧
    opModeToState SX127X_RF_LORA_OPMODE_RECEIVER_SINGLE =
      some NetoptState.idle := by
  decide

/-- Witness for C8 at the single-receiver raw mode. -/
theorem c8_get_state_mapping_witness :
    (opModeToState SX127X_RF_LORA_OPMODE_RECEIVER_SINGLE).isSome = true :=
  c8_get_state_mapping.1 SX127X_RF_LORA_OPMODE_RECEIVER_SINGLE (by decide)

/-! ## Claim C3 -/

/-- Claim C3: for every bandwidth, spreading-factor and coding-rate value
inside its validated range the setter succeeds and a subsequent getter
returns the same value; for every value outside the range the setter fails
with `-EINVAL` and leaves the device (stored settings and chip registers,
there being no effects at all) unchanged. -/
theorem c3_setter_ranges (dev : Device) (opt : NetoptK) (v : Nat) :
    ((rangeLo opt ≤ v ∧ v ≤ rangeHi opt) →
      (_set dev opt v).1 = 1 ∧ (_get (_set dev opt v).2.1 opt).2 = v) ∧
    (¬ (rangeLo opt ≤ v ∧ v ≤ rangeHi opt) →
      _set dev opt v = (-EINVAL, dev, [])) := by
  cases opt
  case bandwidth =>
    constructor
    · intro h
      have hg : ¬ (v < SX127X_BW_125_KHZ ∨ v > SX127X_BW_500_KHZ) := by
        push_neg
        exact ⟨h.1, h.2⟩
      simp [_set, _get, sx127x_set_bandwidth, sx127x_get_bandwidth, hg]
    · intro h
      have hg : v < SX127X_BW_125_KHZ ∨ v > SX127X_BW_500_KHZ := by
        rcases Nat.lt_or_ge v SX127X_BW_125_KHZ with h1 | h1
        · exact Or.inl h1
        · right
          by_contra hc
          push_neg at hc
          exact h ⟨h1, hc⟩
      simp [_set, hg]
  case spreadingFactor =>
    constructor
    · intro h
      have hg : ¬ (v < SX127X_SF6 ∨ v > SX127X_SF12) := by
        push_neg
        exact ⟨h.1, h.2⟩
      simp [_set, _get, sx127x_set_spreading_factor,
            sx127x_get_spreading_factor, hg]
    · intro h
      have hg : v < SX127X_SF6 ∨ v > SX127X_SF12 := by
        rcases Nat.lt_or_ge v SX127X_SF6 with h1 | h1
        · exact Or.inl h1
        · right
          by_contra hc
          push_neg at hc
          exact h ⟨h1, hc⟩
      simp [_set, hg]
  case codingRate =>
    constructor
    · intro h
      have hg : ¬ (v < SX127X_CR_4_5 ∨ v > SX127X_CR_4_8) := by
        push_neg
        exact ⟨h.1, h.2⟩
      simp [_set, _get, sx127x_set_coding_rate, sx127x_get_coding_rate, hg]
    · intro h
      have hg : v < SX127X_CR_4_5 ∨ v > SX127X_CR_4_8 := by
        rcases Nat.lt_or_ge v SX127X_CR_4_5 with h1 | h1
        · exact Or.inl h1
        · right
          by_contra hc
          push_neg at hc
          exact h ⟨h1, hc⟩
      simp [_set, hg]

/-- Witness for C3: an in-range bandwidth write-then-read and an out-of-range
bandwidth rejection on a concrete device. -/
theorem c3_setter_ranges_witness :
    ((_set sampleDev NetoptK.bandwidth 8).1 = 1 ∧
     (_get (_set sampleDev NetoptK.bandwidth 8).2.1 NetoptK.bandwidth).2 = 8) ∧
    _set sampleDev NetoptK.bandwidth 3 = (-EINVAL, sampleDev, []) :=
  ⟨(c3_setter_ranges sampleDev NetoptK.bandwidth 8).1 (by decide),
   (c3_setter_ranges sampleDev NetoptK.bandwidth 3).2 (by decide)⟩

/-- Constant fold: the write-1-to-clear mask for the RXDONE bit. -/
theorem xorFold_rxdone : (255 : Nat) ^^^ (64 &&& 255) = 191 := by decide

/-- Constant fold: the write-1-to-clear mask for the CRC-error bit. -/
theorem xorFold_crc : (255 : Nat) ^^^ (32 &&& 255) = 223 := by decide

/-! ## Claim C4 -/

/-- Claim C4: a receive call with no buffer (probe mode) and no CRC error
flagged returns the received-byte count read from the chip, does not mutate
the logical radio state, does not cancel the rx timeout, and writes nothing
to a caller buffer — the trace contains no state mutation and no timer
cancellation. -/
theorem c4_recv_probe (dev : Device) (len : Nat) (wantInfo : Bool)
    (hm : dev.settings.modem = SX127X_MODEM_LORA)
    (hcrc : dev.regs.irqFlags &&& 0x20 = 0) :
    (_recv dev false len wantInfo).ret =
      ((dev.regs.rxNbBytes &&& 0xFF : Nat) : Int) ∧
    (_recv dev false len wantInfo).dev.settings.state = dev.settings.state ∧
    (_recv dev false len wantInfo).dev.rxTimer = dev.rxTimer ∧
    (_recv dev false len wantInfo).bytesOut = none ∧
    ∀ e ∈ (_recv dev false len wantInfo).trace,
      (∀ s, e ≠ Effect.setLogicalState s) ∧
      (∀ t, e ≠ Effect.timerRemove t) := by
  cases wantInfo <;>
    simp [_recv, regWrite, regRead, hm, hcrc, xorFold_rxdone, xorFold_crc,
          land_clear_rxdone_keeps_crc,
          SX127X_MODEM_FSK, SX127X_MODEM_LORA, SX127X_REG_OPMODE,
          SX127X_REG_LR_FIFOADDRPTR, SX127X_REG_LR_FIFOTXBASEADDR,
          SX127X_REG_LR_FIFORXCURRENTADDR, SX127X_REG_LR_IRQFLAGSMASK,
          SX127X_REG_LR_IRQFLAGS, SX127X_REG_LR_RXNBBYTES,
          SX127X_REG_LR_PKTSNRVALUE, SX127X_REG_LR_PKTRSSIVALUE,
          SX127X_REG_LR_PAYLOADLENGTH, SX127X_REG_DIOMAPPING1,
          SX127X_RF_LORA_IRQFLAGS_RXDONE,
          SX127X_RF_LORA_IRQFLAGS_PAYLOADCRCERROR,
          SX127X_RF_LORA_IRQFLAGS_PAYLOADCRCERROR_MASK]

/-- Witness for C4 on a concrete device with a 5-byte pending packet. -/
theorem c4_recv_probe_witness :
    (_recv sampleDev false 16 true).ret =
      ((sampleDev.regs.rxNbBytes &&& 0xFF : Nat) : Int) ∧
    (_recv sampleDev false 16 true).dev.settings.state =
      sampleDev.settings.state ∧
    (_recv sampleDev false 16 true).dev.rxTimer = sampleDev.rxTimer ∧
    (_recv sampleDev false 16 true).bytesOut = none ∧
    ∀ e ∈ (_recv sampleDev false 16 true).trace,
      (∀ s, e ≠ Effect.setLogicalState s) ∧
      (∀ t, e ≠ Effect.timerRemove t) :=
  c4_recv_probe sampleDev 16 true rfl (by decide)

/-! ## Claim C5 -/

/-- Claim C5: a receive call whose received length exceeds the caller's
buffer capacity fails with `-ENOBUFS`, leaves the logical radio state and
the rx timeout untouched, writes nothing to the caller's buffer, and leaves
the chip FIFO unread (no FIFO read in the trace, FIFO contents unchanged). -/
theorem c5_recv_buffer_too_small (dev : Device) (len : Nat) (wantInfo : Bool)
    (hm : dev.settings.modem = SX127X_MODEM_LORA)
    (hcrc : dev.regs.irqFlags &&& 0x20 = 0)
    (hlen : dev.regs.rxNbBytes &&& 0xFF > len) :
    (_recv dev true len wantInfo).ret = -ENOBUFS ∧
    (_recv dev true len wantInfo).dev.settings.state = dev.settings.state ∧
    (_recv dev true len wantInfo).dev.rxTimer = dev.rxTimer ∧
    (_recv dev true len wantInfo).bytesOut = none ∧
    (_recv dev true len wantInfo).dev.fifo = dev.fifo ∧
    ∀ n, Effect.fifoRead n ∉ (_recv dev true len wantInfo).trace := by
  cases wantInfo <;>
    simp [_recv, regWrite, regRead, hm, hcrc, hlen, xorFold_rxdone,
          xorFold_crc, land_clear_rxdone_keeps_crc,
          SX127X_MODEM_FSK, SX127X_MODEM_LORA, SX127X_REG_OPMODE,
          SX127X_REG_LR_FIFOADDRPTR, SX127X_REG_LR_FIFOTXBASEADDR,
          SX127X_REG_LR_FIFORXCURRENTADDR, SX127X_REG_LR_IRQFLAGSMASK,
          SX127X_REG_LR_IRQFLAGS, SX127X_REG_LR_RXNBBYTES,
          SX127X_REG_LR_PKTSNRVALUE, SX127X_REG_LR_PKTRSSIVALUE,
          SX127X_REG_LR_PAYLOADLENGTH, SX127X_REG_DIOMAPPING1,
          SX127X_RF_LORA_IRQFLAGS_RXDONE,
          SX127X_RF_LORA_IRQFLAGS_PAYLOADCRCERROR,
          SX127X_RF_LORA_IRQFLAGS_PAYLOADCRCERROR_MASK]

/-- Witness for C5: the concrete device holds 5 received bytes and the caller
offers a 3-byte buffer. -/
theorem c5_recv_buffer_too_small_witness :
    (_recv sampleDev true 3 false).ret = -ENOBUFS ∧
    (_recv sampleDev true 3 false).dev.settings.state =
      sampleDev.settings.state ∧
    (_recv sampleDev true 3 false).dev.rxTimer = sampleDev.rxTimer ∧
    (_recv sampleDev true 3 false).bytesOut = none ∧
    (_recv sampleDev true 3 false).dev.fifo = sampleDev.fifo ∧
    ∀ n, Effect.fifoRead n ∉ (_recv sampleDev true 3 false).trace :=
  c5_recv_buffer_too_small sampleDev 3 false rfl (by decide) (by decide)

/-! ## Claim C6 -/

/-- Claim C6: when the CRC-error interrupt flag is set, a receive call clears
that flag, cancels the rx timeout, drops the logical state to the idle
(standby) state unless continuous receive is enabled — in which case the
state is unchanged — signals the CRC-error event upward, and returns the
`-EBADMSG` error without writing to the caller's buffer. -/
theorem c6_recv_crc_error (dev : Device) (hasBuf : Bool) (len : Nat)
    (wantInfo : Bool)
    (hm : dev.settings.modem = SX127X_MODEM_LORA)
    (hcrc : dev.regs.irqFlags &&& 0x20 = 0x20) :
    (_recv dev hasBuf len wantInfo).ret = -EBADMSG ∧
    (_recv dev hasBuf len wantInfo).dev.regs.irqFlags &&& 0x20 = 0 ∧
    (_recv dev hasBuf len wantInfo).dev.rxTimer = none ∧
    (_recv dev hasBuf len wantInfo).dev.settings.state =
      (if dev.settings.rxContinuous then dev.settings.state
       else SX127X_RF_IDLE) ∧
    Effect.event Ev.crcError ∈ (_recv dev hasBuf len wantInfo).trace ∧
    (_recv dev hasBuf len wantInfo).bytesOut = none := by
  cases hrc : dev.settings.rxContinuous <;>
    simp [_recv, regWrite, regRead, sx127x_set_state, hm, hcrc, hrc,
          xorFold_rxdone, xorFold_crc, land_clear_rxdone_keeps_crc,
          land_clear_both_clears_crc,
          SX127X_MODEM_FSK, SX127X_MODEM_LORA, SX127X_REG_OPMODE,
          SX127X_REG_LR_FIFOADDRPTR, SX127X_REG_LR_FIFOTXBASEADDR,
          SX127X_REG_LR_FIFORXCURRENTADDR, SX127X_REG_LR_IRQFLAGSMASK,
          SX127X_REG_LR_IRQFLAGS, SX127X_REG_LR_RXNBBYTES,
          SX127X_REG_LR_PKTSNRVALUE, SX127X_REG_LR_PKTRSSIVALUE,
          SX127X_REG_LR_PAYLOADLENGTH, SX127X_REG_DIOMAPPING1,
          SX127X_RF_LORA_IRQFLAGS_RXDONE,
          SX127X_RF_LORA_IRQFLAGS_PAYLOADCRCERROR,
          SX127X_RF_LORA_IRQFLAGS_PAYLOADCRCERROR_MASK]

/-- Witness for C6 on a concrete device with the CRC-error flag raised. -/
theorem c6_recv_crc_error_witness :
    (_recv devCrc true 16 true).ret = -EBADMSG ∧
    (_recv devCrc true 16 true).dev.regs.irqFlags &&& 0x20 = 0 ∧
    (_recv devCrc true 16 true).dev.rxTimer = none ∧
    (_recv devCrc true 16 true).dev.settings.state =
      (if devCrc.settings.rxContinuous then devCrc.settings.state
       else SX127X_RF_IDLE) ∧
    Effect.event Ev.crcError ∈ (_recv devCrc true 16 true).trace ∧
    (_recv devCrc true 16 true).bytesOut = none :=
  c6_recv_crc_error devCrc true 16 true rfl (by decide)

/-! ## Claims C9 and C10 -/

/-- Register writes never change the driver settings. -/
theorem regWrite_settings (d : Device) (a v : Nat) :
    (regWrite d a v).settings = d.settings := by
  unfold regWrite
  split_ifs <;> rfl

/-- FIFO writes never change the driver settings. -/
theorem foldl_write_fifo_settings (l : List (List Nat)) (d : Device) :
    (l.foldl (fun d b => sx127x_write_fifo d b) d).settings = d.settings := by
  induction l generalizing d with
  | nil => rfl
  | cons b t ih => simpa [sx127x_write_fifo] using ih (sx127x_write_fifo d b)

/-- The modem-specific part of `_send` never changes the driver settings. -/
theorem sendModemPart_settings (dev : Device) (v : List (List Nat)) (s : Nat) :
    (sendModemPart dev v s).1.settings = dev.settings := by
  unfold sendModemPart
  split_ifs with h1 h2
  · rfl
  · rw [foldl_write_fifo_settings]
    split_ifs <;>
      simp [sx127x_set_payload_length, sx127x_set_standby,
            sx127x_set_op_mode, regWrite_settings]
  · rfl

/-- The fixed tail of every `_send` trace: interrupt-mask switch, DIO0
mapping, tx-timeout arm, state change and transmit-mode command, in this
order. -/
def sendTail (dev : Device) (dio : Nat) : List Effect :=
  [Effect.regWrite SX127X_REG_LR_IRQFLAGSMASK txIrqMaskValue,
   Effect.regRead SX127X_REG_DIOMAPPING1,
   Effect.regWrite SX127X_REG_DIOMAPPING1 dio,
   Effect.timerSet TimerId.tx dev.settings.tx_timeout,
   Effect.setLogicalState SX127X_RF_TX_RUNNING,
   Effect.setOpMode SX127X_RF_OPMODE_TRANSMITTER]

/-- Ordering property of a successful LoRa `_send`: the trace splits into a
prefix holding the payload-length programming, the FIFO base/pointer
programming and every FIFO payload write — and containing no interrupt-mask
write, no timer arm, no state change and no op-mode command — followed by the
fixed tail in which the interrupt-mask write precedes the tx-timeout arm,
which precedes the transmit-mode command. -/
def SendOrdered (dev : Device) (vector : List (List Nat)) : Prop :=
  ∃ pre dio,
    (_send dev vector).2.2 = pre ++ sendTail dev dio ∧
    Effect.regWrite SX127X_REG_LR_PAYLOADLENGTH (_get_tx_len vector) ∈ pre ∧
    Effect.regWrite SX127X_REG_LR_FIFOTXBASEADDR 0 ∈ pre ∧
    Effect.regWrite SX127X_REG_LR_FIFOADDRPTR 0 ∈ pre ∧
    (∀ b ∈ vector, Effect.fifoWrite b ∈ pre) ∧
    ∀ e ∈ pre,
      (∀ v, e ≠ Effect.regWrite SX127X_REG_LR_IRQFLAGSMASK v) ∧
      (∀ t d, e ≠ Effect.timerSet t d) ∧
      (∀ m, e ≠ Effect.setOpMode m) ∧
      (∀ s, e ≠ Effect.setLogicalState s)

/-- Claim C9: in every send that is not refused as busy and runs the LoRa
modem path, all payload-length/FIFO-address programming and all FIFO payload
writes complete strictly before the interrupt-mask register is written,
which precedes arming the tx timeout, which precedes commanding transmit
mode. -/
theorem c9_send_ordering (dev : Device) (vector : List (List Nat))
    (htx : ¬ sx127x_get_state dev = SX127X_RF_TX_RUNNING)
    (hm : dev.settings.modem = SX127X_MODEM_LORA) :
    SendOrdered dev vector := by
  refine ⟨(sendModemPart dev vector (_get_tx_len vector)).2,
          ((regWrite (sendModemPart dev vector (_get_tx_len vector)).1
              SX127X_REG_LR_IRQFLAGSMASK txIrqMaskValue).regs.dioMapping1 &&&
            0xFF &&& SX127X_RF_LORA_DIOMAPPING1_DIO0_MASK) |||
            SX127X_RF_LORA_DIOMAPPING1_DIO0_01,
          ?_, ?_, ?_, ?_, ?_, ?_⟩
  · simp [_send, htx, sendTail, regRead, regWrite_settings,
          sendModemPart_settings, SX127X_REG_OPMODE,
          SX127X_REG_LR_FIFOADDRPTR, SX127X_REG_LR_FIFOTXBASEADDR,
          SX127X_REG_LR_FIFORXCURRENTADDR, SX127X_REG_LR_IRQFLAGSMASK,
          SX127X_REG_LR_IRQFLAGS, SX127X_REG_LR_RXNBBYTES,
          SX127X_REG_LR_PKTSNRVALUE, SX127X_REG_LR_PKTRSSIVALUE,
          SX127X_REG_LR_PAYLOADLENGTH, SX127X_REG_DIOMAPPING1]
  · simp [sendModemPart, hm, SX127X_MODEM_FSK, SX127X_MODEM_LORA]
  · simp [sendModemPart, hm, SX127X_MODEM_FSK, SX127X_MODEM_LORA]
  · simp [sendModemPart, hm, SX127X_MODEM_FSK, SX127X_MODEM_LORA]
  · intro b hb
    simp [sendModemPart, hm, SX127X_MODEM_FSK, SX127X_MODEM_LORA, hb]
  · intro e he
    simp [sendModemPart, hm, SX127X_MODEM_FSK, SX127X_MODEM_LORA,
          SX127X_REG_LR_PAYLOADLENGTH, SX127X_REG_LR_FIFOTXBASEADDR,
          SX127X_REG_LR_FIFOADDRPTR] at he
    refine ⟨fun v hv => ?_, fun t d htd => ?_, fun m hmm => ?_,
            fun s hs => ?_⟩ <;>
      subst_vars <;>
      simp [SX127X_REG_LR_IRQFLAGSMASK] at he <;>
      split at he <;>
      simp at he

/-- Witness for C9 on a concrete idle LoRa device and a two-buffer payload. -/
theorem c9_send_ordering_witness : SendOrdered sampleDev [[1, 2], [3]] :=
  c9_send_ordering sampleDev [[1, 2], [3]] (by decide) rfl

/-- Claim C10: a send on a device whose modem is not LoRa (and that is not
already Transmitting) still returns success, writes the transmit interrupt
mask, arms the tx timeout, and records the Transmitting state, while writing
no payload bytes to the FIFO (the trace is exactly the fixed tail, and the
FIFO contents are unchanged). -/
theorem c10_send_non_lora (dev : Device) (vector : List (List Nat))
    (htx : ¬ sx127x_get_state dev = SX127X_RF_TX_RUNNING)
    (hm : dev.settings.modem ≠ SX127X_MODEM_LORA) :
    (_send dev vector).1 = 0 ∧
    (_send dev vector).2.1.settings.state = SX127X_RF_TX_RUNNING ∧
    (_send dev vector).2.1.txTimer = some dev.settings.tx_timeout ∧
    (_send dev vector).2.1.fifo = dev.fifo ∧
    (_send dev vector).2.2 =
      sendTail dev
        ((dev.regs.dioMapping1 &&& 0xFF &&&
          SX127X_RF_LORA_DIOMAPPING1_DIO0_MASK) |||
         SX127X_RF_LORA_DIOMAPPING1_DIO0_01) := by
  have hm1 : ¬ dev.settings.modem = 1 := by
    simpa [SX127X_MODEM_LORA] using hm
  by_cases hfsk : dev.settings.modem = 0 <;>
    simp [_send, sendModemPart, sendTail, htx, hm1, hfsk, regRead, regWrite,
          sx127x_set_state, sx127x_set_op_mode,
          SX127X_MODEM_FSK, SX127X_MODEM_LORA, SX127X_REG_OPMODE,
          SX127X_REG_LR_FIFOADDRPTR, SX127X_REG_LR_FIFOTXBASEADDR,
          SX127X_REG_LR_FIFORXCURRENTADDR, SX127X_REG_LR_IRQFLAGSMASK,
          SX127X_REG_LR_IRQFLAGS, SX127X_REG_LR_RXNBBYTES,
          SX127X_REG_LR_PKTSNRVALUE, SX127X_REG_LR_PKTRSSIVALUE,
          SX127X_REG_LR_PAYLOADLENGTH, SX127X_REG_DIOMAPPING1]

/-- Witness for C10 on a concrete FSK device. -/
theorem c10_send_non_lora_witness :
    (_send devFsk [[9, 9]]).1 = 0 ∧
    (_send devFsk [[9, 9]]).2.1.settings.state = SX127X_RF_TX_RUNNING ∧
    (_send devFsk [[9, 9]]).2.1.txTimer = some devFsk.settings.tx_timeout ∧
    (_send devFsk [[9, 9]]).2.1.fifo = devFsk.fifo ∧
    (_send devFsk [[9, 9]]).2.2 =
      sendTail devFsk
        ((devFsk.regs.dioMapping1 &&& 0xFF &&&
          SX127X_RF_LORA_DIOMAPPING1_DIO0_MASK) |||
         SX127X_RF_LORA_DIOMAPPING1_DIO0_01) :=
  c10_send_non_lora devFsk [[9, 9]] (by decide) (by decide)
